import Mathlib

/- Shallow embedding of supabase/functions/verify-razorpay-payment/index.ts:
   the sale-finalization request handler of the ticket_swpper3 repository.
   The handler is a linear chain of guarded steps (auth, validation,
   configuration, ticket fetch, settlement, persistence, best-effort
   mirror, response); fallible store operations are driven by an explicit
   Behavior record so that partial-failure semantics can be stated. -/

namespace RazorpayVerify

/-- JavaScript truthiness for a possibly absent string: undefined, null and
the empty string are falsy; every other string is truthy. -/
def truthy : Option String → Bool
  | none => false
  | some s => !(s == "")

/-- Model of the JS expression `x || d` where `x` is a possibly absent
string and `d` a string default: the default is taken when `x` is falsy. -/
def jsOrStr (x : Option String) (d : String) : String :=
  match x with
  | some s => if s == "" then d else s
  | none => d

/-- Model of the JS expression `a || b` where both sides are possibly
absent strings: the left side wins when truthy. -/
def jsOrOpt (a b : Option String) : Option String :=
  if truthy a then a else b

/-- Model of JavaScript Math.round on a rational argument: floor of
x + 1/2 (JavaScript rounds halves up, toward positive infinity). -/
def jsRound (q : ℚ) : ℤ := (q + 1/2).floor

/-- Environment-sourced configuration read by the handler via Deno.env.get;
each variable is a possibly absent string. -/
structure Env where
  supabaseUrl : Option String
  supabaseServiceRoleKey : Option String
  razorpayKeySecret : Option String
  externalSupabaseUrl : Option String
  externalSupabaseServiceRoleKey : Option String
  externalSupabaseAnonKey : Option String
  deriving DecidableEq, Repr

/-- Parsed JSON request body; each destructured field is a possibly absent
string (none models a field that is absent from the JSON object). -/
structure RequestBody where
  razorpay_payment_id : Option String
  razorpay_order_id : Option String
  razorpay_signature : Option String
  ticketId : Option String
  buyer_id : Option String
  buyer_name : Option String
  deriving DecidableEq, Repr

/-- Identity returned by the auth provider for a token; only the
email_confirmed_at timestamp is read by the handler. -/
structure AuthUser where
  email_confirmed_at : Option String
  deriving DecidableEq, Repr

/-- Row of the primary store's tickets table, with the columns this
handler reads or writes. -/
structure Ticket where
  id : String
  selling_price : ℚ
  seller_id : String
  status : String
  buyer_id : Option String
  passenger_name : Option String
  pnr_number : Option String
  sold_at : Option String
  deriving DecidableEq, Repr

/-- Row inserted into the transactions table. -/
structure TransactionRow where
  id : String
  ticket_id : String
  buyer_id : Option String
  seller_id : String
  amount : ℚ
  platform_fee : ℤ
  status : String
  payment_method : String
  razorpay_order_id : String
  razorpay_payment_id : String
  escrow_status : String
  completed_at : String
  deriving DecidableEq, Repr

/-- Row inserted into the seller_payouts table. -/
structure PayoutRow where
  transaction_id : String
  seller_id : String
  amount : ℚ
  status : String
  payment_method : String
  created_at : String
  deriving DecidableEq, Repr

/-- Row of the external (secondary) store's tickets table: the correlation
key, the one mirrored column, and an opaque payload standing for every
other column of the row. -/
structure ExternalRow where
  pnr_number : String
  passenger_name : String
  payload : String
  deriving DecidableEq, Repr

/-- State of the primary relational store. -/
structure Db where
  tickets : List Ticket
  transactions : List TransactionRow
  payouts : List PayoutRow
  deriving DecidableEq, Repr

/-- Outcome of the external-store PATCH call: success, a non-ok HTTP
response, or a thrown fetch error (both failures only logged). -/
inductive ExtOutcome
  | ok
  | httpError
  | threw
  deriving DecidableEq, Repr

/-- Failure injection for the fallible store operations: whether each
store call reports an error, and the outcome of the external fetch. -/
structure Behavior where
  txInsertFails : Bool
  ticketUpdateFails : Bool
  payoutInsertFails : Bool
  extOutcome : ExtOutcome
  deriving DecidableEq, Repr

/-- Store accesses the handler performs, in order, used to state that a
rejected request never touched the item store. -/
inductive Effect
  | ticketLookup (ticketId : String)
  | txInsert
  | ticketUpdate
  | externalPatch (key pnr newName : String)
  | payoutInsert
  deriving DecidableEq, Repr

/-- JSON response bodies the handler can produce, one constructor per
shape appearing in the source. -/
inductive ResponseBody
  | err (error : String)
  | errDetails (error details : String)
  | errMessage (error message : String)
  | success (txId : String) (amount : ℚ) (platformCommission : ℤ) (sellerAmount : ℚ)
      (txStatus : String) (ticketId : String) (ticketStatus : String)
  | caught (error : String)
  deriving DecidableEq, Repr

/-- HTTP-style response: status code plus JSON body. -/
structure Response where
  status : Nat
  body : ResponseBody
  deriving DecidableEq, Repr

/-- Full observable outcome of one handler invocation: the response, the
final primary-store state, the final external-store state, and the list
of store accesses performed. -/
structure HandlerResult where
  response : Response
  db : Db
  externalDb : List ExternalRow
  effects : List Effect
  deriving DecidableEq, Repr

/-- Fixed commission rate from the source: `const commissionRate = 0.05`. -/
def commissionRate : ℚ := 5 / 100

/-- Message reported by the store client when a single-row request does
not match exactly one row. -/
def singleRowErrorMessage : String := "JSON object requested, multiple (or no) rows returned"

/-- Row transformation of the tickets update issued on a sale: the matched
row gets status sold, the buyer id, the passenger name (buyer_name or the
fallback literal), and the sale timestamp. An absent buyer_id is dropped
from the serialized update payload, leaving the stored column unchanged. -/
def updateTicketRow (tid : String) (buyerId buyerName : Option String) (now : String)
    (t : Ticket) : Ticket :=
  if t.id == tid then
    { t with
      status := "sold"
      buyer_id := match buyerId with | some v => some v | none => t.buyer_id
      passenger_name := some (jsOrStr buyerName "Unknown Buyer")
      sold_at := some now }
  else t

/-- Condition under which the external mirror step runs: external URL
configured, a key configured (service-role preferred over anon), and the
ticket carries a truthy pnr_number. -/
def mirrorConfigured (env : Env) (pnr : Option String) : Bool :=
  truthy env.externalSupabaseUrl &&
    truthy (jsOrOpt env.externalSupabaseServiceRoleKey env.externalSupabaseAnonKey) &&
    truthy pnr

/-- Best-effort mirror of the passenger name to the external store: a
PATCH filtered by pnr_number setting only passenger_name, skipped entirely
when unconfigured or without a pnr; a non-ok response or a thrown fetch
leaves the external store unchanged and is only logged. -/
def externalMirror (env : Env) (b : Behavior) (buyerName : Option String)
    (pnr : Option String) (extDb : List ExternalRow) : List ExternalRow × List Effect :=
  if mirrorConfigured env pnr then
    let externalKey := jsOrOpt env.externalSupabaseServiceRoleKey env.externalSupabaseAnonKey
    let p := pnr.getD ""
    let newName := jsOrStr buyerName "Unknown Buyer"
    let effs := [Effect.externalPatch (externalKey.getD "") p newName]
    match b.extOutcome with
    | .ok =>
      (extDb.map fun r => if r.pnr_number == p then { r with passenger_name := newName } else r,
        effs)
    | .httpError => (extDb, effs)
    | .threw => (extDb, effs)
  else (extDb, [])

/-- Shallow embedding of the handler body for a non-preflight request:
JSON parse (an absent body models a parse throw landing in the catch
block), authorization-header gate, token gate, email-verification gate,
required-fields gate, gateway-credential and store-configuration gates,
ticket fetch by id, settlement computation, transaction insert (fatal on
failure), ticket update (non-fatal), external mirror (non-fatal), payout
insert (non-fatal), and the success response. -/
def verifyRazorpayPayment (env : Env) (authHeader : Option String)
    (body : Option RequestBody) (authUser : Option AuthUser) (db : Db)
    (extDb : List ExternalRow) (b : Behavior) (now genTxId : String) : HandlerResult :=
  match body with
  | none =>
    { response := { status := 500, body := .caught "Internal server error while verifying payment" }
      db := db, externalDb := extDb, effects := [] }
  | some req =>
    if !(truthy authHeader) then
      { response := { status := 401, body := .err "No authorization header provided" }
        db := db, externalDb := extDb, effects := [] }
    else
      match authUser with
      | none =>
        { response := { status := 401, body := .err "Invalid or expired token" }
          db := db, externalDb := extDb, effects := [] }
      | some user =>
        if !(truthy user.email_confirmed_at) then
          { response :=
              { status := 403
                body := .errMessage "Email verification required"
                  "Please verify your email before purchasing tickets" }
            db := db, externalDb := extDb, effects := [] }
        else if !(truthy req.razorpay_payment_id && truthy req.razorpay_order_id &&
            truthy req.razorpay_signature && truthy req.ticketId) then
          { response :=
              { status := 400
                body := .err "Missing required fields: razorpay_payment_id, razorpay_order_id, razorpay_signature, ticketId" }
            db := db, externalDb := extDb, effects := [] }
        else if !(truthy env.razorpayKeySecret) then
          { response := { status := 500, body := .err "Razorpay credentials not configured" }
            db := db, externalDb := extDb, effects := [] }
        else if !(truthy env.supabaseUrl && truthy env.supabaseServiceRoleKey) then
          { response := { status := 500, body := .err "Supabase configuration missing" }
            db := db, externalDb := extDb, effects := [] }
        else
          let tid := req.ticketId.getD ""
          match db.tickets.filter (fun t => t.id == tid) with
          | [ticket] =>
            let sellingPrice := ticket.selling_price
            let platformCommission := jsRound (sellingPrice * commissionRate)
            let sellerAmount := sellingPrice - (platformCommission : ℚ)
            if b.txInsertFails then
              { response := { status := 500, body := .err "Failed to create transaction record" }
                db := db, externalDb := extDb
                effects := [.ticketLookup tid, .txInsert] }
            else
              let txRow : TransactionRow :=
                { id := genTxId
                  ticket_id := tid
                  buyer_id := if truthy req.buyer_id then req.buyer_id else none
                  seller_id := ticket.seller_id
                  amount := sellingPrice
                  platform_fee := platformCommission
                  status := "completed"
                  payment_method := "razorpay"
                  razorpay_order_id := req.razorpay_order_id.getD ""
                  razorpay_payment_id := req.razorpay_payment_id.getD ""
                  escrow_status := "held"
                  completed_at := now }
              let db1 : Db := { db with transactions := db.transactions ++ [txRow] }
              let db2 : Db :=
                if b.ticketUpdateFails then db1
                else { db1 with
                  tickets := db1.tickets.map (updateTicketRow tid req.buyer_id req.buyer_name now) }
              let mres := externalMirror env b req.buyer_name ticket.pnr_number extDb
              let payoutRow : PayoutRow :=
                { transaction_id := genTxId
                  seller_id := ticket.seller_id
                  amount := sellerAmount
                  status := "pending"
                  payment_method := "upi"
                  created_at := now }
              let db3 : Db :=
                if b.payoutInsertFails then db2
                else { db2 with payouts := db2.payouts ++ [payoutRow] }
              { response :=
                  { status := 200
                    body := .success genTxId sellingPrice platformCommission sellerAmount
                      "completed" tid "sold" }
                db := db3, externalDb := mres.1
                effects := [.ticketLookup tid, .txInsert, .ticketUpdate] ++ mres.2 ++ [.payoutInsert] }
          | _ =>
            { response := { status := 404, body := .errDetails "Ticket not found" singleRowErrorMessage }
              db := db, externalDb := extDb, effects := [.ticketLookup tid] }

/-- Primary-store configuration with the external store unconfigured. -/
def sampleEnv : Env :=
  { supabaseUrl := some "https://primary.example"
    supabaseServiceRoleKey := some "service-key"
    razorpayKeySecret := some "rzp-secret"
    externalSupabaseUrl := none
    externalSupabaseServiceRoleKey := none
    externalSupabaseAnonKey := none }

/-- Listed ticket T1 priced 1000, owned by seller S1. -/
def sampleTicket : Ticket :=
  { id := "T1", selling_price := 1000, seller_id := "S1", status := "available"
    buyer_id := none, passenger_name := none, pnr_number := none, sold_at := none }

/-- Request body of the successful flow of the spec. -/
def sampleBody : RequestBody :=
  { razorpay_payment_id := some "p1", razorpay_order_id := some "o1"
    razorpay_signature := some "s1", ticketId := some "T1"
    buyer_id := some "B1", buyer_name := some "Alice" }

/-- Verified caller identity. -/
def sampleUser : AuthUser := { email_confirmed_at := some "2024-01-01T00:00:00Z" }

/-- Store holding only ticket T1. -/
def sampleDb : Db := { tickets := [sampleTicket], transactions := [], payouts := [] }

/-- Behavior in which every store operation succeeds. -/
def okBehavior : Behavior :=
  { txInsertFails := false, ticketUpdateFails := false, payoutInsertFails := false
    extOutcome := .ok }

/-- Behavior in which every non-fatal store operation fails but the
transaction insert succeeds. -/
def failNonfatalBehavior : Behavior :=
  { txInsertFails := false, ticketUpdateFails := true, payoutInsertFails := true
    extOutcome := ExtOutcome.threw }

/-- Store with no tickets, no transactions and no payouts. -/
def emptyDb : Db := { tickets := [], transactions := [], payouts := [] }

/-- Fields of the JSON request body destructured by the handler, used to
state how many required fields the validation gate can have. -/
inductive BodyField
  | paymentId
  | orderId
  | signature
  | ticketIdField
  | buyerId
  | buyerName
  deriving DecidableEq, Fintype

theorem jsRound_floor (q : ℚ) : jsRound q = ⌊q + 1/2⌋ := rfl

/-- C1: on the successful flow with item T1 priced 1000 and the given body,
the handler returns 200 with transaction amount 1000, platform commission
50, seller amount 950 and ticket status sold; the item row ends sold with
buyer B1 and passenger name Alice; and a payout row of amount 950 with
status pending is created. -/
theorem successful_flow_C1 :
    (verifyRazorpayPayment sampleEnv (some "Bearer tok") (some sampleBody)
      (some sampleUser) sampleDb [] okBehavior "2024-01-02T00:00:00Z" "tx1").response.status = 200 ∧
    (verifyRazorpayPayment sampleEnv (some "Bearer tok") (some sampleBody)
      (some sampleUser) sampleDb [] okBehavior "2024-01-02T00:00:00Z" "tx1").response.body
      = .success "tx1" 1000 50 950 "completed" "T1" "sold" ∧
    (verifyRazorpayPayment sampleEnv (some "Bearer tok") (some sampleBody)
      (some sampleUser) sampleDb [] okBehavior "2024-01-02T00:00:00Z" "tx1").db.tickets
      = [{ sampleTicket with
            status := "sold", buyer_id := some "B1"
            passenger_name := some "Alice", sold_at := some "2024-01-02T00:00:00Z" }] ∧
    ((verifyRazorpayPayment sampleEnv (some "Bearer tok") (some sampleBody)
      (some sampleUser) sampleDb [] okBehavior "2024-01-02T00:00:00Z" "tx1").db.payouts.map
        fun p => (p.amount, p.status)) = [((950 : ℚ), "pending")] := by
  refine ⟨rfl, ?_, by decide, ?_⟩ <;>
    · simp only [verifyRazorpayPayment, sampleEnv, sampleBody, sampleUser, sampleDb,
        sampleTicket, okBehavior, truthy, jsOrStr, jsOrOpt, updateTicketRow,
        externalMirror, mirrorConfigured]
      norm_num [jsRound_floor, commissionRate]
      decide

set_option maxHeartbeats 2000000 in
/-- C2: whenever the handler produces the success body, the platform
commission it reports equals round of the amount times the fixed
compile-time commission rate 0.05, and the seller amount equals the amount
minus that commission, for every non-negative selling price. -/
theorem settlement_formula_C2 (env : Env) (authHeader : Option String)
    (body : Option RequestBody) (authUser : Option AuthUser) (db : Db)
    (extDb : List ExternalRow) (b : Behavior) (now genTxId : String)
    (txId : String) (amount : ℚ) (pc : ℤ) (sa : ℚ) (ts tk tks : String)
    (hnn : 0 ≤ amount)
    (h : (verifyRazorpayPayment env authHeader body authUser db extDb b now genTxId).response.body
      = ResponseBody.success txId amount pc sa ts tk tks) :
    pc = jsRound (amount * commissionRate) ∧ sa = amount - (pc : ℚ) := by
  simp only [verifyRazorpayPayment] at h
  repeat' first
    | exact ResponseBody.noConfusion h
    | (injection h with e1 e2 e3 e4 e5 e6 e7
       subst e2
       subst e3
       subst e4
       exact ⟨rfl, rfl⟩)
    | split at h

/-- C2 witness: the theorem applied to the successful sample flow, where
the amount is 1000, the commission 50 and the seller amount 950. -/
theorem settlement_formula_C2_witness :
    (0 : ℚ) ≤ 1000 ∧ ((50 : ℤ) = jsRound (1000 * commissionRate) ∧
      (950 : ℚ) = 1000 - (((50 : ℤ)) : ℚ)) :=
  ⟨by norm_num,
    settlement_formula_C2 sampleEnv (some "Bearer tok") (some sampleBody)
      (some sampleUser) sampleDb [] okBehavior "2024-01-02T00:00:00Z" "tx1"
      "tx1" 1000 50 950 "completed" "T1" "sold" (by norm_num) (by
        simp only [verifyRazorpayPayment, sampleEnv, sampleBody, sampleUser, sampleDb,
          sampleTicket, okBehavior, truthy, jsOrStr, jsOrOpt, updateTicketRow,
          externalMirror, mirrorConfigured]
        norm_num [jsRound_floor, commissionRate]
        decide)⟩

set_option maxHeartbeats 2000000 in
/-- C3: the response of the handler does not depend on whether the ticket
update, the external mirror or the payout insert fails, provided the
transaction insert succeeds: any two behaviors with a succeeding
transaction insert yield the same response. -/
theorem nonfatal_failures_C3 (env : Env) (ah : Option String) (body : Option RequestBody)
    (au : Option AuthUser) (db : Db) (extDb : List ExternalRow) (b1 b2 : Behavior)
    (now gid : String) (h1 : b1.txInsertFails = false) (h2 : b2.txInsertFails = false) :
    (verifyRazorpayPayment env ah body au db extDb b1 now gid).response
      = (verifyRazorpayPayment env ah body au db extDb b2 now gid).response := by
  unfold verifyRazorpayPayment
  repeat' first
    | rfl
    | exact Bool.noConfusion (h1 ▸ ‹b1.txInsertFails = true›)
    | exact Bool.noConfusion (h2 ▸ ‹b2.txInsertFails = true›)
    | split
    | (dsimp only; split)

/-- C3 witness: the all-success behavior and the behavior failing every
non-fatal step produce the same response on the sample flow. -/
theorem nonfatal_failures_C3_witness :
    okBehavior.txInsertFails = false ∧ failNonfatalBehavior.txInsertFails = false ∧
    (verifyRazorpayPayment sampleEnv (some "Bearer tok") (some sampleBody) (some sampleUser)
        sampleDb [] okBehavior "n" "g").response
      = (verifyRazorpayPayment sampleEnv (some "Bearer tok") (some sampleBody) (some sampleUser)
        sampleDb [] failNonfatalBehavior "n" "g").response :=
  ⟨rfl, rfl,
    nonfatal_failures_C3 sampleEnv (some "Bearer tok") (some sampleBody) (some sampleUser)
      sampleDb [] okBehavior failNonfatalBehavior "n" "g" rfl rfl⟩

/-- C4: the handler never verifies the razorpay signature: two requests
identical except for their non-empty signature values produce the same
response, the same primary-store and external-store states, and the same
store accesses. -/
theorem signature_ignored_C4 (env : Env) (ah : Option String) (req : RequestBody)
    (au : Option AuthUser) (db : Db) (extDb : List ExternalRow) (b : Behavior)
    (now gid : String) (s1 s2 : String) (h1 : s1 ≠ "") (h2 : s2 ≠ "") :
    verifyRazorpayPayment env ah (some { req with razorpay_signature := some s1 })
        au db extDb b now gid
      = verifyRazorpayPayment env ah (some { req with razorpay_signature := some s2 })
        au db extDb b now gid := by
  have e1 : (s1 == "") = false := by simp [h1]
  have e2 : (s2 == "") = false := by simp [h2]
  simp only [verifyRazorpayPayment, truthy, e1, e2]

/-- C4 witness: the theorem applied to the sample flow with two different
concrete signatures. -/
theorem signature_ignored_C4_witness :
    "sigA" ≠ "" ∧ "sigB" ≠ "" ∧
    verifyRazorpayPayment sampleEnv (some "Bearer tok")
        (some { sampleBody with razorpay_signature := some "sigA" })
        (some sampleUser) sampleDb [] okBehavior "n" "g"
      = verifyRazorpayPayment sampleEnv (some "Bearer tok")
        (some { sampleBody with razorpay_signature := some "sigB" })
        (some sampleUser) sampleDb [] okBehavior "n" "g" :=
  ⟨by decide, by decide,
    signature_ignored_C4 sampleEnv (some "Bearer tok") sampleBody (some sampleUser)
      sampleDb [] okBehavior "n" "g" "sigA" "sigB" (by decide) (by decide)⟩

/-- C6 counterexample: a request with no Authorization header whose body
is not parseable JSON lands in the catch block and is answered 500, not
401, so the 401 answer does not hold regardless of body contents. -/
theorem parse_throw_C6_counterexample :
    (verifyRazorpayPayment sampleEnv none none (some sampleUser) sampleDb []
        okBehavior "n" "g").response.status = 500 ∧
    (verifyRazorpayPayment sampleEnv none none (some sampleUser) sampleDb []
        okBehavior "n" "g").response.status ≠ 401 ∧
    (verifyRazorpayPayment sampleEnv none none (some sampleUser) sampleDb []
        okBehavior "n" "g").response.body
      ≠ ResponseBody.err "No authorization header provided" := by
  refine ⟨rfl, by decide, by decide⟩

/-- C6 amended: for every request whose body parses as JSON and whose
Authorization header is missing, the handler answers 401 with the
no-authorization-header error, whatever the parsed body contains. -/
theorem missing_auth_header_C6 (env : Env) (req : RequestBody) (au : Option AuthUser)
    (db : Db) (extDb : List ExternalRow) (b : Behavior) (now gid : String) :
    (verifyRazorpayPayment env none (some req) au db extDb b now gid).response
      = { status := 401, body := ResponseBody.err "No authorization header provided" } := rfl

/-- C5: when every gate before the ticket fetch passes but no ticket with
the requested id exists in the store, the handler answers 404 with the
ticket-not-found error and creates no transaction and no payout: both
stores are left unchanged. -/
theorem ticket_not_found_C5 (env : Env) (ah : Option String) (req : RequestBody)
    (user : AuthUser) (db : Db) (extDb : List ExternalRow) (b : Behavior)
    (now gid : String)
    (hah : truthy ah = true)
    (hemail : truthy user.email_confirmed_at = true)
    (hfields : (truthy req.razorpay_payment_id && truthy req.razorpay_order_id &&
      truthy req.razorpay_signature && truthy req.ticketId) = true)
    (hrz : truthy env.razorpayKeySecret = true)
    (hsb : (truthy env.supabaseUrl && truthy env.supabaseServiceRoleKey) = true)
    (hmiss : db.tickets.filter (fun t => t.id == req.ticketId.getD "") = []) :
    (verifyRazorpayPayment env ah (some req) (some user) db extDb b now gid).response.status
      = 404 ∧
    (verifyRazorpayPayment env ah (some req) (some user) db extDb b now gid).response.body
      = ResponseBody.errDetails "Ticket not found" singleRowErrorMessage ∧
    (verifyRazorpayPayment env ah (some req) (some user) db extDb b now gid).db = db ∧
    (verifyRazorpayPayment env ah (some req) (some user) db extDb b now gid).externalDb
      = extDb := by
  simp [verifyRazorpayPayment, hah, hemail, hfields, hrz, hsb, hmiss]

/-- C5 witness: the theorem applied to the sample request against a store
holding no tickets at all. -/
theorem ticket_not_found_C5_witness :
    emptyDb.tickets.filter (fun t => t.id == sampleBody.ticketId.getD "") = [] ∧
    ((verifyRazorpayPayment sampleEnv (some "Bearer tok") (some sampleBody) (some sampleUser)
        emptyDb [] okBehavior "n" "g").response.status = 404 ∧
      (verifyRazorpayPayment sampleEnv (some "Bearer tok") (some sampleBody) (some sampleUser)
        emptyDb [] okBehavior "n" "g").response.body
        = ResponseBody.errDetails "Ticket not found" singleRowErrorMessage ∧
      (verifyRazorpayPayment sampleEnv (some "Bearer tok") (some sampleBody) (some sampleUser)
        emptyDb [] okBehavior "n" "g").db = emptyDb ∧
      (verifyRazorpayPayment sampleEnv (some "Bearer tok") (some sampleBody) (some sampleUser)
        emptyDb [] okBehavior "n" "g").externalDb = []) :=
  ⟨rfl,
    ticket_not_found_C5 sampleEnv (some "Bearer tok") sampleBody sampleUser emptyDb []
      okBehavior "n" "g" (by decide) (by decide) (by decide) (by decide) (by decide) rfl⟩

/-- C7 counterexample: the body has six fields; no five of them exclude
both optional ones, so there is no set of five required fields; moreover a
request carrying exactly the four fields the gate checks, with both
optional fields absent (hence any further field absent as well), is not
rejected with 400: the item lookup proceeds and answers 404. -/
theorem required_fields_count_C7_counterexample :
    (¬ ∃ S : Finset BodyField, S.card = 5 ∧
      BodyField.buyerId ∉ S ∧ BodyField.buyerName ∉ S) ∧
    (verifyRazorpayPayment sampleEnv (some "Bearer tok")
        (some { razorpay_payment_id := some "p1", razorpay_order_id := some "o1"
                razorpay_signature := some "s1", ticketId := some "T1"
                buyer_id := none, buyer_name := none })
        (some sampleUser) emptyDb [] okBehavior "n" "g").response.status = 404 ∧
    (verifyRazorpayPayment sampleEnv (some "Bearer tok")
        (some { razorpay_payment_id := some "p1", razorpay_order_id := some "o1"
                razorpay_signature := some "s1", ticketId := some "T1"
                buyer_id := none, buyer_name := none })
        (some sampleUser) emptyDb [] okBehavior "n" "g").response.status ≠ 400 ∧
    (verifyRazorpayPayment sampleEnv (some "Bearer tok")
        (some { razorpay_payment_id := some "p1", razorpay_order_id := some "o1"
                razorpay_signature := some "s1", ticketId := some "T1"
                buyer_id := none, buyer_name := none })
        (some sampleUser) emptyDb [] okBehavior "n" "g").effects
      = [Effect.ticketLookup "T1"] := by
  refine ⟨by decide, rfl, by decide, rfl⟩

/-- C7 amended: any of the four required fields (razorpay_payment_id,
razorpay_order_id, razorpay_signature, ticketId) absent or empty makes an
authenticated, email-verified request fail with 400 and the enumerated
missing-fields message, before any item-store access happens: no effects
are performed and the store is untouched. -/
theorem required_fields_C7 (env : Env) (ah : Option String) (req : RequestBody)
    (user : AuthUser) (db : Db) (extDb : List ExternalRow) (b : Behavior) (now gid : String)
    (hah : truthy ah = true)
    (hemail : truthy user.email_confirmed_at = true)
    (hmiss : (truthy req.razorpay_payment_id && truthy req.razorpay_order_id &&
      truthy req.razorpay_signature && truthy req.ticketId) = false) :
    (verifyRazorpayPayment env ah (some req) (some user) db extDb b now gid).response.status
      = 400 ∧
    (verifyRazorpayPayment env ah (some req) (some user) db extDb b now gid).response.body
      = ResponseBody.err "Missing required fields: razorpay_payment_id, razorpay_order_id, razorpay_signature, ticketId" ∧
    (verifyRazorpayPayment env ah (some req) (some user) db extDb b now gid).effects = [] ∧
    (verifyRazorpayPayment env ah (some req) (some user) db extDb b now gid).db = db := by
  simp [verifyRazorpayPayment, hah, hemail, hmiss]

/-- C7 witness: the amended theorem applied to a request whose ticketId is
absent. -/
theorem required_fields_C7_witness :
    (truthy (some "p1") && truthy (some "o1") && truthy (some "s1") && truthy none) = false ∧
    ((verifyRazorpayPayment sampleEnv (some "Bearer tok")
        (some { sampleBody with ticketId := none }) (some sampleUser) sampleDb []
        okBehavior "n" "g").response.status = 400 ∧
      (verifyRazorpayPayment sampleEnv (some "Bearer tok")
        (some { sampleBody with ticketId := none }) (some sampleUser) sampleDb []
        okBehavior "n" "g").response.body
        = ResponseBody.err "Missing required fields: razorpay_payment_id, razorpay_order_id, razorpay_signature, ticketId" ∧
      (verifyRazorpayPayment sampleEnv (some "Bearer tok")
        (some { sampleBody with ticketId := none }) (some sampleUser) sampleDb []
        okBehavior "n" "g").effects = [] ∧
      (verifyRazorpayPayment sampleEnv (some "Bearer tok")
        (some { sampleBody with ticketId := none }) (some sampleUser) sampleDb []
        okBehavior "n" "g").db = sampleDb) :=
  ⟨rfl,
    required_fields_C7 sampleEnv (some "Bearer tok") { sampleBody with ticketId := none }
      sampleUser sampleDb [] okBehavior "n" "g" (by decide) (by decide) rfl⟩

/-- Identifier of a ticket row is never changed by the sale update. -/
theorem updateTicketRow_id (tid : String) (bi bn : Option String) (now : String)
    (t : Ticket) : (updateTicketRow tid bi bn now t).id = t.id := by
  unfold updateTicketRow
  split <;> rfl

/-- Characterization of a fully successful run: with every gate passing,
a unique matching ticket and the all-success behavior, the handler result
is the success response together with the three persistence writes. -/
theorem verify_success_eq (env : Env) (ah : Option String) (req : RequestBody)
    (user : AuthUser) (db : Db) (extDb : List ExternalRow) (now gid tid : String) (t : Ticket)
    (hah : truthy ah = true)
    (hemail : truthy user.email_confirmed_at = true)
    (hp : truthy req.razorpay_payment_id = true)
    (ho : truthy req.razorpay_order_id = true)
    (hs : truthy req.razorpay_signature = true)
    (ht : req.ticketId = some tid) (htid : (tid == "") = false)
    (hrz : truthy env.razorpayKeySecret = true)
    (hsu : truthy env.supabaseUrl = true)
    (hsk : truthy env.supabaseServiceRoleKey = true)
    (hT : db.tickets.filter (fun tk => tk.id == tid) = [t]) :
    verifyRazorpayPayment env ah (some req) (some user) db extDb okBehavior now gid =
      { response :=
          { status := 200
            body := ResponseBody.success gid t.selling_price
              (jsRound (t.selling_price * commissionRate))
              (t.selling_price - ((jsRound (t.selling_price * commissionRate) : ℤ) : ℚ))
              "completed" tid "sold" }
        db :=
          { tickets := db.tickets.map (updateTicketRow tid req.buyer_id req.buyer_name now)
            transactions := db.transactions ++
              [{ id := gid, ticket_id := tid
                 buyer_id := if truthy req.buyer_id then req.buyer_id else none
                 seller_id := t.seller_id, amount := t.selling_price
                 platform_fee := jsRound (t.selling_price * commissionRate)
                 status := "completed", payment_method := "razorpay"
                 razorpay_order_id := req.razorpay_order_id.getD ""
                 razorpay_payment_id := req.razorpay_payment_id.getD ""
                 escrow_status := "held", completed_at := now }]
            payouts := db.payouts ++
              [{ transaction_id := gid, seller_id := t.seller_id
                 amount := t.selling_price - ((jsRound (t.selling_price * commissionRate) : ℤ) : ℚ)
                 status := "pending", payment_method := "upi", created_at := now }] }
        externalDb := (externalMirror env okBehavior req.buyer_name t.pnr_number extDb).1
        effects := [Effect.ticketLookup tid, Effect.txInsert, Effect.ticketUpdate]
          ++ (externalMirror env okBehavior req.buyer_name t.pnr_number extDb).2
          ++ [Effect.payoutInsert] } := by
  simp [verifyRazorpayPayment, okBehavior, hah, hemail, hp, ho, hs, ht, htid, hrz, hsu,
    hsk, hT]
  simp [truthy, htid]

/-- Filtering by ticket id commutes with the sale update of the rows: if
exactly one row matched before the update, exactly its updated version
matches afterwards. -/
theorem filter_map_updateTicketRow (tid : String) (bi bn : Option String) (now : String)
    (l : List Ticket) (t : Ticket)
    (hT : l.filter (fun tk => tk.id == tid) = [t]) :
    (l.map (updateTicketRow tid bi bn now)).filter (fun tk => tk.id == tid)
      = [updateTicketRow tid bi bn now t] := by
  rw [List.filter_map]
  have e : ((fun tk : Ticket => tk.id == tid) ∘ updateTicketRow tid bi bn now)
      = fun tk : Ticket => tk.id == tid := by
    funext tk
    simp [Function.comp, updateTicketRow_id]
  rw [e, hT]
  rfl

set_option maxHeartbeats 1000000 in
/-- C8: the flow is not idempotent: starting from a store whose only
matching ticket is t, running the handler twice with the same ticketId and
all gates passing yields 200 both times and leaves two transaction rows
and two payout rows in the store; the sold status written by the first run
does not stop the second sale. -/
theorem not_idempotent_C8 (env : Env) (ah : Option String) (req : RequestBody)
    (user : AuthUser) (db : Db) (extDb : List ExternalRow)
    (now1 now2 gid1 gid2 tid : String) (t : Ticket)
    (hah : truthy ah = true)
    (hemail : truthy user.email_confirmed_at = true)
    (hp : truthy req.razorpay_payment_id = true)
    (ho : truthy req.razorpay_order_id = true)
    (hs : truthy req.razorpay_signature = true)
    (ht : req.ticketId = some tid) (htid : (tid == "") = false)
    (hrz : truthy env.razorpayKeySecret = true)
    (hsu : truthy env.supabaseUrl = true)
    (hsk : truthy env.supabaseServiceRoleKey = true)
    (hT : db.tickets.filter (fun tk => tk.id == tid) = [t]) :
    (verifyRazorpayPayment env ah (some req) (some user) db extDb okBehavior
        now1 gid1).response.status = 200 ∧
    (verifyRazorpayPayment env ah (some req) (some user)
        (verifyRazorpayPayment env ah (some req) (some user) db extDb okBehavior now1 gid1).db
        (verifyRazorpayPayment env ah (some req) (some user) db extDb okBehavior now1 gid1).externalDb
        okBehavior now2 gid2).response.status = 200 ∧
    (verifyRazorpayPayment env ah (some req) (some user)
        (verifyRazorpayPayment env ah (some req) (some user) db extDb okBehavior now1 gid1).db
        (verifyRazorpayPayment env ah (some req) (some user) db extDb okBehavior now1 gid1).externalDb
        okBehavior now2 gid2).db.transactions.length = db.transactions.length + 2 ∧
    (verifyRazorpayPayment env ah (some req) (some user)
        (verifyRazorpayPayment env ah (some req) (some user) db extDb okBehavior now1 gid1).db
        (verifyRazorpayPayment env ah (some req) (some user) db extDb okBehavior now1 gid1).externalDb
        okBehavior now2 gid2).db.payouts.length = db.payouts.length + 2 := by
  have h1 := verify_success_eq env ah req user db extDb now1 gid1 tid t
    hah hemail hp ho hs ht htid hrz hsu hsk hT
  rw [h1]
  have hT2 := filter_map_updateTicketRow tid req.buyer_id req.buyer_name now1 db.tickets t hT
  have h2 := verify_success_eq env ah req user
    { tickets := db.tickets.map (updateTicketRow tid req.buyer_id req.buyer_name now1)
      transactions := db.transactions ++
        [{ id := gid1, ticket_id := tid
           buyer_id := if truthy req.buyer_id then req.buyer_id else none
           seller_id := t.seller_id, amount := t.selling_price
           platform_fee := jsRound (t.selling_price * commissionRate)
           status := "completed", payment_method := "razorpay"
           razorpay_order_id := req.razorpay_order_id.getD ""
           razorpay_payment_id := req.razorpay_payment_id.getD ""
           escrow_status := "held", completed_at := now1 }]
      payouts := db.payouts ++
        [{ transaction_id := gid1, seller_id := t.seller_id
           amount := t.selling_price - ((jsRound (t.selling_price * commissionRate) : ℤ) : ℚ)
           status := "pending", payment_method := "upi", created_at := now1 }] }
    (externalMirror env okBehavior req.buyer_name t.pnr_number extDb).1 now2 gid2 tid
    (updateTicketRow tid req.buyer_id req.buyer_name now1 t)
    hah hemail hp ho hs ht htid hrz hsu hsk hT2
  rw [h2]
  refine ⟨rfl, rfl, ?_, ?_⟩ <;> simp

/-- C8 witness: two runs over the sample store for ticket T1 give 200
twice and leave two transactions and two payouts. -/
theorem not_idempotent_C8_witness :
    (verifyRazorpayPayment sampleEnv (some "Bearer tok") (some sampleBody) (some sampleUser)
        sampleDb [] okBehavior "d1" "tx1").response.status = 200 ∧
    (verifyRazorpayPayment sampleEnv (some "Bearer tok") (some sampleBody) (some sampleUser)
        (verifyRazorpayPayment sampleEnv (some "Bearer tok") (some sampleBody) (some sampleUser)
          sampleDb [] okBehavior "d1" "tx1").db
        (verifyRazorpayPayment sampleEnv (some "Bearer tok") (some sampleBody) (some sampleUser)
          sampleDb [] okBehavior "d1" "tx1").externalDb
        okBehavior "d2" "tx2").response.status = 200 ∧
    (verifyRazorpayPayment sampleEnv (some "Bearer tok") (some sampleBody) (some sampleUser)
        (verifyRazorpayPayment sampleEnv (some "Bearer tok") (some sampleBody) (some sampleUser)
          sampleDb [] okBehavior "d1" "tx1").db
        (verifyRazorpayPayment sampleEnv (some "Bearer tok") (some sampleBody) (some sampleUser)
          sampleDb [] okBehavior "d1" "tx1").externalDb
        okBehavior "d2" "tx2").db.transactions.length = sampleDb.transactions.length + 2 ∧
    (verifyRazorpayPayment sampleEnv (some "Bearer tok") (some sampleBody) (some sampleUser)
        (verifyRazorpayPayment sampleEnv (some "Bearer tok") (some sampleBody) (some sampleUser)
          sampleDb [] okBehavior "d1" "tx1").db
        (verifyRazorpayPayment sampleEnv (some "Bearer tok") (some sampleBody) (some sampleUser)
          sampleDb [] okBehavior "d1" "tx1").externalDb
        okBehavior "d2" "tx2").db.payouts.length = sampleDb.payouts.length + 2 :=
  not_idempotent_C8 sampleEnv (some "Bearer tok") sampleBody sampleUser sampleDb []
    "d1" "d2" "tx1" "tx2" "T1" sampleTicket (by decide) (by decide) (by decide) (by decide)
    (by decide) rfl (by decide) (by decide) (by decide) (by decide) (by decide)

/-- Forall₂ between a list and its image under a function that relates
every element to its image. -/
theorem forall2_map_self {α : Type} (f : α → α) (φ : α → α → Prop)
    (h : ∀ a, φ a (f a)) : ∀ l : List α, List.Forall₂ φ l (l.map f)
  | [] => List.Forall₂.nil
  | a :: l => List.Forall₂.cons (h a) (forall2_map_self f φ h l)

/-- Forall₂ between a list and itself for a reflexive relation. -/
theorem forall2_self {α : Type} (φ : α → α → Prop) (h : ∀ a, φ a a) :
    ∀ l : List α, List.Forall₂ φ l l
  | [] => List.Forall₂.nil
  | a :: l => List.Forall₂.cons (h a) (forall2_self φ h l)

/-- C9: the external mirror rewrites only the passenger_name field, and
only of rows whose pnr_number equals the ticket's, setting it to
buyer_name or the fallback literal; its one PATCH call carries the
service-role key when configured and the anon key otherwise; and it is
entirely skipped, leaving the external store unchanged with no call
issued, when the external store is unconfigured or the pnr is missing. -/
theorem mirror_frame_C9 (env : Env) (b : Behavior) (buyerName pnr : Option String)
    (extDb : List ExternalRow) :
    (mirrorConfigured env pnr = false →
      externalMirror env b buyerName pnr extDb = (extDb, [])) ∧
    List.Forall₂ (fun r r' : ExternalRow =>
      r'.pnr_number = r.pnr_number ∧ r'.payload = r.payload ∧
      (r.pnr_number ≠ pnr.getD "" → r' = r) ∧
      (r'.passenger_name = r.passenger_name ∨
        r'.passenger_name = jsOrStr buyerName "Unknown Buyer") ∧
      (mirrorConfigured env pnr = true → b.extOutcome = ExtOutcome.ok →
        r.pnr_number = pnr.getD "" →
        r'.passenger_name = jsOrStr buyerName "Unknown Buyer"))
      extDb (externalMirror env b buyerName pnr extDb).1 ∧
    (∀ e ∈ (externalMirror env b buyerName pnr extDb).2,
      e = Effect.externalPatch
        ((jsOrOpt env.externalSupabaseServiceRoleKey env.externalSupabaseAnonKey).getD "")
        (pnr.getD "") (jsOrStr buyerName "Unknown Buyer")) := by
  refine ⟨?_, ?_, ?_⟩
  · intro hc
    simp [externalMirror, hc]
  · by_cases hc : mirrorConfigured env pnr
    · rw [externalMirror, if_pos hc]
      cases hx : b.extOutcome
      · dsimp only
        refine forall2_map_self _ _ ?_ extDb
        intro r
        by_cases hr : (r.pnr_number == pnr.getD "") = true
        · rw [if_pos hr]
          have he : r.pnr_number = pnr.getD "" := by simpa using hr
          exact ⟨rfl, rfl, fun hne => absurd he hne, Or.inr rfl, fun _ _ _ => rfl⟩
        · rw [if_neg hr]
          have hne : r.pnr_number ≠ pnr.getD "" := by simpa using hr
          exact ⟨rfl, rfl, fun _ => rfl, Or.inl rfl,
            fun _ _ hehm => absurd hehm hne⟩
      · dsimp only
        refine forall2_self _ ?_ extDb
        intro r
        exact ⟨rfl, rfl, fun _ => rfl, Or.inl rfl,
          fun _ hok _ => ExtOutcome.noConfusion hok⟩
      · dsimp only
        refine forall2_self _ ?_ extDb
        intro r
        exact ⟨rfl, rfl, fun _ => rfl, Or.inl rfl,
          fun _ hok _ => ExtOutcome.noConfusion hok⟩
    · have hc0 : mirrorConfigured env pnr = false := by simpa using hc
      rw [externalMirror, if_neg (by simp [hc0])]
      refine forall2_self _ ?_ extDb
      intro r
      exact ⟨rfl, rfl, fun _ => rfl, Or.inl rfl, fun hT _ _ => absurd hT (by simp [hc0])⟩
  · intro e he
    by_cases hc : mirrorConfigured env pnr
    · rw [externalMirror, if_pos hc] at he
      cases hx : b.extOutcome <;> rw [hx] at he <;> simp at he <;> exact he
    · rw [externalMirror, if_neg hc] at he
      exact absurd he (List.not_mem_nil e)

/-- C9 witness: with the external store unconfigured the mirror leaves the
external store unchanged and issues no call. -/
theorem mirror_frame_C9_witness :
    mirrorConfigured sampleEnv (some "PNR1") = false ∧
    externalMirror sampleEnv okBehavior (some "Alice") (some "PNR1")
        [{ pnr_number := "PNR1", passenger_name := "Old", payload := "x" }]
      = ([{ pnr_number := "PNR1", passenger_name := "Old", payload := "x" }], []) :=
  ⟨rfl,
    (mirror_frame_C9 sampleEnv okBehavior (some "Alice") (some "PNR1")
      [{ pnr_number := "PNR1", passenger_name := "Old", payload := "x" }]).1 rfl⟩

set_option maxHeartbeats 1000000 in
/-- C10: when the request carries no buyer_name, a successful sale writes
the fallback literal Unknown Buyer into the primary store's item row as
its passenger_name, rather than leaving the stored name unchanged. -/
theorem unknown_buyer_fallback_C10 (env : Env) (ah : Option String) (req : RequestBody)
    (user : AuthUser) (db : Db) (extDb : List ExternalRow)
    (now gid tid : String) (t : Ticket)
    (hah : truthy ah = true)
    (hemail : truthy user.email_confirmed_at = true)
    (hp : truthy req.razorpay_payment_id = true)
    (ho : truthy req.razorpay_order_id = true)
    (hs : truthy req.razorpay_signature = true)
    (ht : req.ticketId = some tid) (htid : (tid == "") = false)
    (hrz : truthy env.razorpayKeySecret = true)
    (hsu : truthy env.supabaseUrl = true)
    (hsk : truthy env.supabaseServiceRoleKey = true)
    (hT : db.tickets.filter (fun tk => tk.id == tid) = [t])
    (hname : req.buyer_name = none) :
    ∀ tk ∈ (verifyRazorpayPayment env ah (some req) (some user) db extDb okBehavior
        now gid).db.tickets,
      tk.id = tid → tk.passenger_name = some "Unknown Buyer" := by
  rw [verify_success_eq env ah req user db extDb now gid tid t
    hah hemail hp ho hs ht htid hrz hsu hsk hT]
  intro tk htk hid
  obtain ⟨t0, ht0, rfl⟩ := List.mem_map.1 htk
  rw [updateTicketRow_id] at hid
  unfold updateTicketRow
  rw [if_pos (by simpa using hid)]
  rw [hname]
  rfl

/-- C10 witness: the theorem applied to the sample flow without a
buyer_name, evaluated at the updated row for T1: its stored passenger_name
is the literal Unknown Buyer. -/
theorem unknown_buyer_fallback_C10_witness :
    (updateTicketRow "T1" (some "B1") none "d1" sampleTicket).passenger_name
      = some "Unknown Buyer" :=
  unknown_buyer_fallback_C10 sampleEnv (some "Bearer tok")
    { sampleBody with buyer_name := none } sampleUser sampleDb [] "d1" "tx1" "T1"
    sampleTicket (by decide) (by decide) (by decide) (by decide) (by decide) rfl
    (by decide) (by decide) (by decide) (by decide) (by decide) rfl
    (updateTicketRow "T1" (some "B1") none "d1" sampleTicket) (by decide) (by decide)

end RazorpayVerify
